import Mathlib

/-!
Verification of the booking engine of the Camargue Sailing website
(src/booking.py, src/models.py) against its design specification.

The Python module is embedded shallowly:

* `PyDate` models `datetime.date` values: a triple (year, month, day)
  compared lexicographically, exactly as Python compares dates.
* `Booking` models a row of the `bookings` table (src/models.py): integer
  id, integer user_id, two dates, and an open string status column
  (the `created_at`/`updated_at` timestamps, set by the store on write,
  are not modelled).
* `Store` models the reservation table together with the autoincrementing
  primary-key counter.
* Each Python function becomes a Lean function over `Store`.  The
  database session is modelled by explicit parameters: `dbOk : Bool`
  (false means a read query raises, the `except` branch runs) and, for
  the write paths, `commitFail : Option String` / `commitOk : Bool`
  (a failing `db_session.commit()` raises an exception whose text is the
  carried string, and the code rolls the transaction back, leaving the
  store unchanged).
* Every `raise ValueError(msg)` in the source is modelled by a
  `BookingError` value naming the raise site; `BookingError.message`
  gives the exact message string the source formats, and
  `BookingError.toPy` gives the Python exception as the caller sees it:
  exception class plus message.
-/

deriving instance DecidableEq for Except

/-- A Python `datetime.date`: year, month, day. Python orders dates
lexicographically on this triple. -/
structure PyDate where
  year : Nat
  month : Nat
  day : Nat
deriving DecidableEq, Repr

/-- Strict order on dates, as Python compares `date` values. -/
def PyDate.Lt (a b : PyDate) : Prop :=
  a.year < b.year ∨
    (a.year = b.year ∧
      (a.month < b.month ∨ (a.month = b.month ∧ a.day < b.day)))

instance : LT PyDate := ⟨PyDate.Lt⟩

instance (a b : PyDate) : Decidable (a < b) := by
  change Decidable (PyDate.Lt a b)
  unfold PyDate.Lt
  infer_instance

/-- Non-strict order on dates. -/
def PyDate.Le (a b : PyDate) : Prop := a < b ∨ a = b

instance : LE PyDate := ⟨PyDate.Le⟩

instance (a b : PyDate) : Decidable (a ≤ b) := by
  change Decidable (PyDate.Le a b)
  unfold PyDate.Le
  infer_instance

/-- Boolean strict comparison on dates. -/
def PyDate.blt (a b : PyDate) : Bool := decide (a < b)

/-- Boolean non-strict comparison on dates. -/
def PyDate.ble (a b : PyDate) : Bool := decide (a ≤ b)

theorem PyDate.le_total_bool (a b : PyDate) : a.ble b || b.ble a := by
  rcases a with ⟨ay, am, ad⟩
  rcases b with ⟨by_, bm, bd⟩
  simp only [PyDate.ble, Bool.or_eq_true, decide_eq_true_eq]
  show PyDate.Le _ _ ∨ PyDate.Le _ _
  unfold PyDate.Le
  show (PyDate.Lt _ _ ∨ _) ∨ (PyDate.Lt _ _ ∨ _)
  unfold PyDate.Lt
  simp only [PyDate.mk.injEq]
  omega

theorem PyDate.le_trans_bool (a b c : PyDate) :
    a.ble b → b.ble c → a.ble c := by
  rcases a with ⟨ay, am, ad⟩
  rcases b with ⟨by_, bm, bd⟩
  rcases c with ⟨cy, cm, cd⟩
  simp only [PyDate.ble, decide_eq_true_eq]
  show PyDate.Le _ _ → PyDate.Le _ _ → PyDate.Le _ _
  unfold PyDate.Le
  show (PyDate.Lt _ _ ∨ _) → (PyDate.Lt _ _ ∨ _) → (PyDate.Lt _ _ ∨ _)
  unfold PyDate.Lt
  simp only [PyDate.mk.injEq]
  omega

/-- A row of the `bookings` table (src/models.py, class `Booking`):
integer primary key, owning user id, start and end dates, and the open
string status column (`String(50)`, no enumeration constraint). -/
structure Booking where
  id : Nat
  user_id : Nat
  start_date : PyDate
  end_date : PyDate
  status : String
deriving DecidableEq, Repr

/-- The persistent store: the list of booking rows in insertion order,
plus the next value of the autoincrementing primary key. -/
structure Store where
  bookings : List Booking
  nextId : Nat
deriving DecidableEq, Repr

/-- `check_availability(start_date, end_date)` from src/booking.py.
Returns false for a non-positive range before touching the store; then
counts confirmed bookings satisfying
`Booking.start_date < end_date and Booking.end_date > start_date` and
returns true iff the count is zero.  When the query raises
(`dbOk = false`) the except branch logs and returns false (fail-safe). -/
def check_availability (dbOk : Bool) (s : Store)
    (start_date end_date : PyDate) : Bool :=
  if end_date ≤ start_date then
    false
  else if dbOk then
    (s.bookings.countP fun b =>
      b.status == "confirmed" && b.start_date.blt end_date
        && start_date.blt b.end_date) == 0
  else
    false

/-- The distinct raise sites of `create_booking` in src/booking.py:
the two validation raises, the availability-conflict raise, and the
re-raise in the except branch around the commit, which carries the text
of the underlying storage exception. -/
inductive BookingError where
  | pastDate : BookingError
  | badRange : BookingError
  | conflict : BookingError
  | storageFailure (detail : String) : BookingError
deriving DecidableEq, Repr

/-- The exact message string each raise site of `create_booking`
formats.  The storage-failure branch runs
`raise ValueError(f"Failed to create booking: {str(e)}")`, so its
message embeds the text of the underlying storage exception. -/
def BookingError.message : BookingError → String
  | .pastDate => "Start date cannot be in the past"
  | .badRange => "End date must be after start date"
  | .conflict =>
      "The requested period is not available - it overlaps with an existing booking"
  | .storageFailure detail => "Failed to create booking: " ++ detail

/-- A raised Python exception as the caller observes it: the exception
class and the message argument. -/
structure PyError where
  cls : String
  msg : String
deriving DecidableEq, Repr

/-- What Python actually raises at each raise site of `create_booking`:
every site executes `raise ValueError(...)`, so the exception class is
the same `ValueError` for all of them and only the message differs. -/
def BookingError.toPy (e : BookingError) : PyError :=
  { cls := "ValueError", msg := e.message }

/-- `create_booking(user_id, start_date, end_date)` from src/booking.py.
`today` stands for `date.today()`; `dbOk` for whether the availability
query inside `check_availability` succeeds; `commitFail = some detail`
means `db_session.commit()` raises an exception whose text is `detail`,
in which case the code rolls back (store unchanged) and re-raises a
`ValueError` embedding `detail`.  The Lean value `Except.ok (some b)`
models the Python `return booking` statement; the function is annotated
`Optional[Booking]` but has no `return None` path. -/
def create_booking (today : PyDate) (dbOk : Bool)
    (commitFail : Option String) (s : Store) (user_id : Nat)
    (start_date end_date : PyDate) :
    Except BookingError (Option Booking) × Store :=
  if start_date < today then
    (.error .pastDate, s)
  else if end_date ≤ start_date then
    (.error .badRange, s)
  else if !check_availability dbOk s start_date end_date then
    (.error .conflict, s)
  else
    let booking : Booking :=
      { id := s.nextId, user_id := user_id, start_date := start_date,
        end_date := end_date, status := "confirmed" }
    match commitFail with
    | some detail => (.error (.storageFailure detail), s)
    | none =>
        (.ok (some booking),
          { bookings := s.bookings ++ [booking], nextId := s.nextId + 1 })

/-- Writes `booking.status = "cancelled"` through the first row matching
the id, as the ORM does to the object returned by
`query(...).filter_by(id=booking_id).first()`; later rows untouched. -/
def setCancelledFirst : List Booking → Nat → List Booking
  | [], _ => []
  | b :: rest, bid =>
      if b.id = bid then { b with status := "cancelled" } :: rest
      else b :: setCancelledFirst rest bid

/-- `cancel_booking(booking_id, user_id)` from src/booking.py.  Fetches
the first row with the given id; returns false when none exists or when
its owner is not the acting user (store untouched in both cases);
otherwise sets the status to cancelled and commits.  `commitOk = false`
means the commit raises: the except branch rolls back (store unchanged)
and returns false. -/
def cancel_booking (commitOk : Bool) (s : Store)
    (booking_id user_id : Nat) : Bool × Store :=
  match s.bookings.find? fun b => b.id == booking_id with
  | none => (false, s)
  | some b =>
      if b.user_id ≠ user_id then
        (false, s)
      else if commitOk then
        (true, { s with bookings := setCancelledFirst s.bookings booking_id })
      else
        (false, s)

/-- One entry of the list `get_calendar_data` returns: the dict built
for each booking row (`is_available` is the literal `False` the code
writes; the iso-formatted date strings are kept as dates here). -/
structure CalendarEntry where
  id : Nat
  start_date : PyDate
  end_date : PyDate
  status : String
  is_available : Bool
  user_id : Nat
deriving DecidableEq, Repr

/-- The dict `get_calendar_data` builds for one booking row. -/
def toEntry (b : Booking) : CalendarEntry :=
  { id := b.id, start_date := b.start_date, end_date := b.end_date,
    status := b.status, is_available := false, user_id := b.user_id }

/-- `get_calendar_data(year)` from src/booking.py.  Queries the rows
with `start_date <= Dec 31 of year` and `end_date >= Jan 1 of year`
(every status), ordered by start date ascending, and formats each; when
the query raises (`dbOk = false`) the except branch logs and returns the
empty list.  SQL `ORDER BY` is modelled by a stable merge sort on the
start date. -/
def get_calendar_data (dbOk : Bool) (s : Store) (year : Nat) :
    List CalendarEntry :=
  let start_of_year : PyDate := ⟨year, 1, 1⟩
  let end_of_year : PyDate := ⟨year, 12, 31⟩
  if dbOk then
    (((s.bookings.filter fun b =>
        b.start_date.ble end_of_year && start_of_year.ble b.end_date).mergeSort
          fun a b => a.start_date.ble b.start_date).map toEntry)
  else
    []

/-- One sequential call against the engine, with its environment: the
current date seen by `create_booking`, and whether the query and the
commit succeed on this call. -/
inductive Op where
  | create (today : PyDate) (dbOk : Bool) (commitFail : Option String)
      (user_id : Nat) (start_date end_date : PyDate) : Op
  | cancel (commitOk : Bool) (booking_id user_id : Nat) : Op
deriving DecidableEq, Repr

/-- The store after one call. -/
def applyOp (s : Store) : Op → Store
  | .create today dbOk commitFail uid sd ed =>
      (create_booking today dbOk commitFail s uid sd ed).2
  | .cancel commitOk bid uid => (cancel_booking commitOk s bid uid).2

/-- The store after a finite sequence of sequential calls. -/
def runOps (s : Store) : List Op → Store
  | [] => s
  | op :: rest => runOps (applyOp s op) rest

/-- Two date ranges overlap (half-open interval semantics), as the spec
defines it: `A.start < B.end AND A.end > B.start`. -/
def Overlaps (a b : Booking) : Prop :=
  a.start_date < b.end_date ∧ b.start_date < a.end_date

instance (a b : Booking) : Decidable (Overlaps a b) := by
  unfold Overlaps
  infer_instance

/-- No two distinct confirmed reservations of the store overlap: the
core invariant of the engine. -/
def NoConfirmedOverlap (s : Store) : Prop :=
  ∀ i j : Fin s.bookings.length, i.val ≠ j.val →
    (s.bookings.get i).status = "confirmed" →
    (s.bookings.get j).status = "confirmed" →
    ¬Overlaps (s.bookings.get i) (s.bookings.get j)

instance (s : Store) : Decidable (NoConfirmedOverlap s) := by
  unfold NoConfirmedOverlap
  infer_instance

/-! ### Order lemmas for dates -/

theorem PyDate.lt_iff {a b : PyDate} :
    a < b ↔ (a.year < b.year ∨
      (a.year = b.year ∧
        (a.month < b.month ∨ (a.month = b.month ∧ a.day < b.day)))) := by
  rfl

theorem PyDate.le_iff {a b : PyDate} : a ≤ b ↔ (a < b ∨ a = b) := by
  rfl

theorem PyDate.not_le {a b : PyDate} : ¬a ≤ b ↔ b < a := by
  rcases a with ⟨ay, am, ad⟩
  rcases b with ⟨by_, bm, bd⟩
  rw [PyDate.le_iff, PyDate.lt_iff, PyDate.lt_iff]
  simp only [PyDate.mk.injEq]
  constructor
  · intro h
    by_contra hc
    apply h
    omega
  · intro h hc
    rcases hc with hc | hc <;> omega

theorem check_availability_eq_true_iff (dbOk : Bool) (s : Store)
    (sd ed : PyDate) :
    check_availability dbOk s sd ed = true ↔
      (sd < ed ∧ dbOk = true ∧ ∀ b ∈ s.bookings,
        ¬(b.status = "confirmed" ∧ b.start_date < ed ∧ sd < b.end_date)) := by
  unfold check_availability
  by_cases hle : ed ≤ sd
  · simp only [hle, if_true]
    constructor
    · intro h
      exact absurd h (by simp)
    · rintro ⟨hlt, -, -⟩
      exact absurd hle (PyDate.not_le.mpr hlt)
  · simp only [hle, if_false]
    have hlt : sd < ed := PyDate.not_le.mp hle
    cases dbOk with
    | false => simp [hlt]
    | true =>
        simp only [if_true, beq_iff_eq, List.countP_eq_zero, hlt,
          true_and]
        constructor
        · intro h b hb
          have := h b hb
          simp only [Bool.and_eq_true, beq_iff_eq, PyDate.blt,
            decide_eq_true_eq] at this
          tauto
        · intro h b hb
          have := h b hb
          simp only [Bool.and_eq_true, beq_iff_eq, PyDate.blt,
            decide_eq_true_eq]
          tauto

/-- Claim C2: check_availability(start, end) returns true iff end > start
and no stored confirmed reservation satisfies
stored.start < end and stored.end > start; a non-positive range is
always unavailable, even over the empty store; a storage failure yields
false (fail closed), not an exception. -/
theorem C2_check_availability_correct (dbOk : Bool) (s : Store)
    (sd ed : PyDate) :
    (check_availability dbOk s sd ed = true ↔
      (sd < ed ∧ dbOk = true ∧ ∀ b ∈ s.bookings,
        ¬(b.status = "confirmed" ∧ b.start_date < ed ∧ sd < b.end_date)))
    ∧ (ed ≤ sd → check_availability dbOk s sd ed = false)
    ∧ check_availability false s sd ed = false := by
  refine ⟨check_availability_eq_true_iff dbOk s sd ed, ?_, ?_⟩
  · intro h
    unfold check_availability
    simp [h]
  · unfold check_availability
    by_cases h : ed ≤ sd <;> simp [h]

/-- Claim C2, witness: the iff evaluated over a concrete store holding
one confirmed reservation, at a range overlapping it. -/
theorem C2_check_availability_correct_witness :
    (check_availability true
        ⟨[⟨1, 1, ⟨2025, 8, 1⟩, ⟨2025, 8, 8⟩, "confirmed"⟩], 2⟩
        ⟨2025, 8, 3⟩ ⟨2025, 8, 10⟩ = true ↔
      ((⟨2025, 8, 3⟩ : PyDate) < ⟨2025, 8, 10⟩ ∧ true = true ∧
        ∀ b ∈ (⟨[⟨1, 1, ⟨2025, 8, 1⟩, ⟨2025, 8, 8⟩, "confirmed"⟩], 2⟩ :
            Store).bookings,
          ¬(b.status = "confirmed" ∧ b.start_date < ⟨2025, 8, 10⟩ ∧
            (⟨2025, 8, 3⟩ : PyDate) < b.end_date)))
    ∧ ((⟨2025, 8, 10⟩ : PyDate) ≤ ⟨2025, 8, 3⟩ →
        check_availability true
          ⟨[⟨1, 1, ⟨2025, 8, 1⟩, ⟨2025, 8, 8⟩, "confirmed"⟩], 2⟩
          ⟨2025, 8, 3⟩ ⟨2025, 8, 10⟩ = false)
    ∧ check_availability false
        ⟨[⟨1, 1, ⟨2025, 8, 1⟩, ⟨2025, 8, 8⟩, "confirmed"⟩], 2⟩
        ⟨2025, 8, 3⟩ ⟨2025, 8, 10⟩ = false :=
  C2_check_availability_correct true
    ⟨[⟨1, 1, ⟨2025, 8, 1⟩, ⟨2025, 8, 8⟩, "confirmed"⟩], 2⟩
    ⟨2025, 8, 3⟩ ⟨2025, 8, 10⟩

/-- Claim C10: deleting every row whose status is not exactly the string
"confirmed" never changes the result of check_availability, so a
reservation carrying any other status value (cancelled, misspelled, or
unknown) never blocks availability; in particular over a store with no
confirmed row at all, a positive range with a working store is always
available. -/
theorem C10_only_exact_confirmed_blocks (dbOk : Bool) (s : Store)
    (sd ed : PyDate) :
    check_availability dbOk s sd ed =
      check_availability dbOk
        { s with bookings := s.bookings.filter fun b =>
            b.status == "confirmed" } sd ed
    ∧ ((∀ b ∈ s.bookings, b.status ≠ "confirmed") → sd < ed →
        dbOk = true → check_availability dbOk s sd ed = true) := by
  constructor
  · unfold check_availability
    by_cases h : ed ≤ sd
    · simp [h]
    · simp only [h, if_false]
      cases dbOk with
      | false => simp
      | true =>
          simp only [if_true]
          congr 1
          rw [List.countP_filter]
          apply List.countP_congr
          intro b _
          cases hb : (b.status == "confirmed") <;> simp [hb]
  · intro hnone hlt hdb
    rw [check_availability_eq_true_iff]
    exact ⟨hlt, hdb, fun b hb hc => hnone b hb hc.1⟩

/-- Claim C10, witness: a store holding one overlapping row with the
misspelled status "canceled" and one with "Confirmed" does not block the
range. -/
theorem C10_only_exact_confirmed_blocks_witness :
    (∀ b ∈ (⟨[⟨1, 1, ⟨2025, 8, 1⟩, ⟨2025, 8, 8⟩, "canceled"⟩,
        ⟨2, 1, ⟨2025, 8, 2⟩, ⟨2025, 8, 9⟩, "Confirmed"⟩], 3⟩ :
          Store).bookings, b.status ≠ "confirmed")
    ∧ check_availability true
        ⟨[⟨1, 1, ⟨2025, 8, 1⟩, ⟨2025, 8, 8⟩, "canceled"⟩,
          ⟨2, 1, ⟨2025, 8, 2⟩, ⟨2025, 8, 9⟩, "Confirmed"⟩], 3⟩
        ⟨2025, 8, 3⟩ ⟨2025, 8, 10⟩ = true :=
  ⟨by decide,
    (C10_only_exact_confirmed_blocks true
        ⟨[⟨1, 1, ⟨2025, 8, 1⟩, ⟨2025, 8, 8⟩, "canceled"⟩,
          ⟨2, 1, ⟨2025, 8, 2⟩, ⟨2025, 8, 9⟩, "Confirmed"⟩], 3⟩
        ⟨2025, 8, 3⟩ ⟨2025, 8, 10⟩).2
      (by decide) (by decide) rfl⟩

/-- Claim C5: create_booking raises one of the two validation errors iff
start_date is strictly before today or end_date is not after start_date;
the past-date check runs first, so a past start is reported as the
past-date error whatever the store, the availability of the range, or
the session state; and every validation failure leaves the store
unchanged. -/
theorem C5_validation_order (today : PyDate) (dbOk : Bool)
    (commitFail : Option String) (s : Store) (uid : Nat)
    (sd ed : PyDate) :
    (((create_booking today dbOk commitFail s uid sd ed).1 =
          Except.error BookingError.pastDate ∨
      (create_booking today dbOk commitFail s uid sd ed).1 =
          Except.error BookingError.badRange) ↔
      (sd < today ∨ ed ≤ sd))
    ∧ (sd < today →
        create_booking today dbOk commitFail s uid sd ed =
          (Except.error BookingError.pastDate, s))
    ∧ (¬sd < today → ed ≤ sd →
        create_booking today dbOk commitFail s uid sd ed =
          (Except.error BookingError.badRange, s)) := by
  unfold create_booking
  by_cases h1 : sd < today
  · simp [h1]
  · by_cases h2 : ed ≤ sd
    · simp [h1, h2]
    · rw [if_neg h1, if_neg h2]
      refine ⟨?_, fun h => absurd h h1, fun _ h => absurd h h2⟩
      constructor
      · intro h
        exfalso
        by_cases h3 : check_availability dbOk s sd ed = true
        · rw [h3] at h
          cases commitFail <;> simp_all
        · rw [Bool.not_eq_true] at h3
          rw [h3] at h
          simp_all
      · intro h
        rcases h with h | h
        · exact absurd h h1
        · exact absurd h h2

/-- Claim C5, witness: with today 2025-08-01, a request starting
2025-07-01 over a store whose only confirmed reservation does not even
overlap it is rejected as a past-date error with the store unchanged. -/
theorem C5_validation_order_witness :
    ((⟨2025, 7, 1⟩ : PyDate) < ⟨2025, 8, 1⟩)
    ∧ create_booking ⟨2025, 8, 1⟩ true none
        ⟨[⟨1, 1, ⟨2025, 9, 1⟩, ⟨2025, 9, 8⟩, "confirmed"⟩], 2⟩ 7
        ⟨2025, 7, 1⟩ ⟨2025, 7, 8⟩ =
      (Except.error BookingError.pastDate,
        ⟨[⟨1, 1, ⟨2025, 9, 1⟩, ⟨2025, 9, 8⟩, "confirmed"⟩], 2⟩) :=
  ⟨by decide,
    (C5_validation_order ⟨2025, 8, 1⟩ true none
        ⟨[⟨1, 1, ⟨2025, 9, 1⟩, ⟨2025, 9, 8⟩, "confirmed"⟩], 2⟩ 7
        ⟨2025, 7, 1⟩ ⟨2025, 7, 8⟩).2.1 (by decide)⟩

/-- Claim C9: create_booking either raises a ValueError (leaving the
store unchanged) or returns a reservation that is in the store after the
call, carries status confirmed, and has the given owner and dates; it
never returns the None its Optional annotation and docstring advertise,
and never returns an unpersisted reservation. -/
theorem C9_create_booking_never_none (today : PyDate) (dbOk : Bool)
    (commitFail : Option String) (s : Store) (uid : Nat)
    (sd ed : PyDate) :
    (create_booking today dbOk commitFail s uid sd ed).1 ≠
        Except.ok none
    ∧ ((∃ e : BookingError,
          (create_booking today dbOk commitFail s uid sd ed).1 =
              Except.error e
          ∧ e.toPy.cls = "ValueError"
          ∧ (create_booking today dbOk commitFail s uid sd ed).2 = s)
      ∨ (∃ b : Booking,
          (create_booking today dbOk commitFail s uid sd ed).1 =
              Except.ok (some b)
          ∧ b ∈ (create_booking today dbOk commitFail s uid sd ed).2.bookings
          ∧ b.status = "confirmed" ∧ b.user_id = uid
          ∧ b.start_date = sd ∧ b.end_date = ed)) := by
  unfold create_booking
  by_cases h1 : sd < today
  · rw [if_pos h1]
    exact ⟨by simp, Or.inl ⟨.pastDate, rfl, rfl, rfl⟩⟩
  · by_cases h2 : ed ≤ sd
    · rw [if_neg h1, if_pos h2]
      exact ⟨by simp, Or.inl ⟨.badRange, rfl, rfl, rfl⟩⟩
    · rw [if_neg h1, if_neg h2]
      by_cases h3 : check_availability dbOk s sd ed = true
      · rw [h3]
        cases commitFail with
        | some detail =>
            exact ⟨by simp, Or.inl ⟨.storageFailure detail, rfl, rfl, rfl⟩⟩
        | none =>
            refine ⟨by simp, Or.inr ⟨_, rfl, ?_, rfl, rfl, rfl, rfl⟩⟩
            simp
      · rw [Bool.not_eq_true] at h3
        rw [h3]
        exact ⟨by simp, Or.inl ⟨.conflict, rfl, rfl, rfl⟩⟩

/-- Claim C3, counterexample: the creation-failure report is not generic
and does expose internal storage error detail: over the empty store,
with a valid future range, a commit failing with text "disk full" is
reported as a ValueError whose message embeds that text, and a commit
failing with a different text is reported with a different message. -/
theorem C3_storage_detail_exposed :
    (create_booking ⟨2025, 8, 1⟩ true (some "disk full") ⟨[], 1⟩ 7
        ⟨2025, 8, 2⟩ ⟨2025, 8, 9⟩).1 =
      Except.error (BookingError.storageFailure "disk full")
    ∧ (BookingError.storageFailure "disk full").toPy.msg =
        "Failed to create booking: disk full"
    ∧ (BookingError.storageFailure "disk full").toPy.msg ≠
        (BookingError.storageFailure "network down").toPy.msg := by
  decide

/-- Claim C3 (amended): when the commit raises, the attempt is rolled
back in full (store unchanged, no reservation persisted) and reported to
the caller as a ValueError; but the message of that ValueError is the
prefix "Failed to create booking: " followed by the text of the
underlying storage exception, so the internal storage error detail is
included in the report rather than hidden behind a generic message. -/
theorem C3_storage_failure_rolled_back (today : PyDate) (dbOk : Bool)
    (s : Store) (uid : Nat) (sd ed : PyDate) (detail : String)
    (h1 : ¬sd < today) (h2 : ¬ed ≤ sd)
    (h3 : check_availability dbOk s sd ed = true) :
    create_booking today dbOk (some detail) s uid sd ed =
      (Except.error (BookingError.storageFailure detail), s)
    ∧ (BookingError.storageFailure detail).toPy.cls = "ValueError"
    ∧ (BookingError.storageFailure detail).toPy.msg =
        "Failed to create booking: " ++ detail := by
  refine ⟨?_, rfl, rfl⟩
  unfold create_booking
  rw [if_neg h1, if_neg h2, h3]
  rfl

/-- Claim C3 (amended), witness: the rollback evaluated at a concrete
failing commit over the empty store. -/
theorem C3_storage_failure_rolled_back_witness :
    (¬(⟨2025, 8, 2⟩ : PyDate) < ⟨2025, 8, 1⟩)
    ∧ (¬(⟨2025, 8, 9⟩ : PyDate) ≤ ⟨2025, 8, 2⟩)
    ∧ check_availability true ⟨[], 1⟩ ⟨2025, 8, 2⟩ ⟨2025, 8, 9⟩ = true
    ∧ (create_booking ⟨2025, 8, 1⟩ true (some "disk full") ⟨[], 1⟩ 7
          ⟨2025, 8, 2⟩ ⟨2025, 8, 9⟩ =
        (Except.error (BookingError.storageFailure "disk full"), ⟨[], 1⟩)
      ∧ (BookingError.storageFailure "disk full").toPy.cls = "ValueError"
      ∧ (BookingError.storageFailure "disk full").toPy.msg =
          "Failed to create booking: " ++ "disk full") :=
  ⟨by decide, by decide, by decide,
    C3_storage_failure_rolled_back ⟨2025, 8, 1⟩ true ⟨[], 1⟩ 7
      ⟨2025, 8, 2⟩ ⟨2025, 8, 9⟩ "disk full" (by decide) (by decide)
      (by decide)⟩

/-- Claim C4, counterexample: the conflict is not an error condition a
caller can tell apart from the validation errors without parsing message
text: a conflicting request and a past-date request both surface as an
exception of the very same Python class, ValueError; only the message
strings differ. -/
theorem C4_conflict_same_exception_class :
    (create_booking ⟨2025, 8, 1⟩ true none
        ⟨[⟨1, 1, ⟨2025, 8, 2⟩, ⟨2025, 8, 9⟩, "confirmed"⟩], 2⟩ 7
        ⟨2025, 8, 3⟩ ⟨2025, 8, 10⟩).1 =
      Except.error BookingError.conflict
    ∧ (create_booking ⟨2025, 8, 1⟩ true none
        ⟨[⟨1, 1, ⟨2025, 8, 2⟩, ⟨2025, 8, 9⟩, "confirmed"⟩], 2⟩ 7
        ⟨2025, 7, 1⟩ ⟨2025, 7, 8⟩).1 =
      Except.error BookingError.pastDate
    ∧ (create_booking ⟨2025, 8, 1⟩ true none
        ⟨[⟨1, 1, ⟨2025, 8, 2⟩, ⟨2025, 8, 9⟩, "confirmed"⟩], 2⟩ 7
        ⟨2025, 8, 10⟩ ⟨2025, 8, 10⟩).1 =
      Except.error BookingError.badRange
    ∧ BookingError.conflict.toPy.cls = BookingError.pastDate.toPy.cls
    ∧ BookingError.conflict.toPy.cls = BookingError.badRange.toPy.cls := by
  decide

/-- Claim C4 (amended): an overlapping request that passes both
validation checks is reported as the conflict error; the conflict and
the two validation errors are all raised as the same Python exception
class, ValueError, and are distinguishable only by their message texts,
which are three pairwise-distinct fixed strings. -/
theorem C4_conflict_distinct_by_message_only (today : PyDate)
    (dbOk : Bool) (commitFail : Option String) (s : Store) (uid : Nat)
    (sd ed : PyDate) (h1 : ¬sd < today) (h2 : ¬ed ≤ sd)
    (h3 : check_availability dbOk s sd ed = false) :
    (create_booking today dbOk commitFail s uid sd ed).1 =
      Except.error BookingError.conflict
    ∧ BookingError.conflict.toPy.cls = "ValueError"
    ∧ BookingError.pastDate.toPy.cls = "ValueError"
    ∧ BookingError.badRange.toPy.cls = "ValueError"
    ∧ BookingError.conflict.toPy.msg ≠ BookingError.pastDate.toPy.msg
    ∧ BookingError.conflict.toPy.msg ≠ BookingError.badRange.toPy.msg
    ∧ BookingError.pastDate.toPy.msg ≠ BookingError.badRange.toPy.msg := by
  refine ⟨?_, by decide, by decide, by decide, by decide, by decide,
    by decide⟩
  unfold create_booking
  rw [if_neg h1, if_neg h2, h3]
  rfl

/-- Claim C4 (amended), witness: a request overlapping the single
confirmed reservation of a concrete store is reported as the conflict
ValueError. -/
theorem C4_conflict_distinct_by_message_only_witness :
    (¬(⟨2025, 8, 3⟩ : PyDate) < ⟨2025, 8, 1⟩)
    ∧ (¬(⟨2025, 8, 10⟩ : PyDate) ≤ ⟨2025, 8, 3⟩)
    ∧ check_availability true
        ⟨[⟨1, 1, ⟨2025, 8, 2⟩, ⟨2025, 8, 9⟩, "confirmed"⟩], 2⟩
        ⟨2025, 8, 3⟩ ⟨2025, 8, 10⟩ = false
    ∧ ((create_booking ⟨2025, 8, 1⟩ true none
          ⟨[⟨1, 1, ⟨2025, 8, 2⟩, ⟨2025, 8, 9⟩, "confirmed"⟩], 2⟩ 7
          ⟨2025, 8, 3⟩ ⟨2025, 8, 10⟩).1 =
        Except.error BookingError.conflict
      ∧ BookingError.conflict.toPy.cls = "ValueError"
      ∧ BookingError.pastDate.toPy.cls = "ValueError"
      ∧ BookingError.badRange.toPy.cls = "ValueError"
      ∧ BookingError.conflict.toPy.msg ≠ BookingError.pastDate.toPy.msg
      ∧ BookingError.conflict.toPy.msg ≠ BookingError.badRange.toPy.msg
      ∧ BookingError.pastDate.toPy.msg ≠
          BookingError.badRange.toPy.msg) :=
  ⟨by decide, by decide, by decide,
    C4_conflict_distinct_by_message_only ⟨2025, 8, 1⟩ true none
      ⟨[⟨1, 1, ⟨2025, 8, 2⟩, ⟨2025, 8, 9⟩, "confirmed"⟩], 2⟩ 7
      ⟨2025, 8, 3⟩ ⟨2025, 8, 10⟩ (by decide) (by decide) (by decide)⟩

/-- Claim C6: cancel_booking returns exactly the pair (false, unchanged
store) both when no row carries the requested id and when the first row
carrying it is owned by a different user: the two outcomes are literally
the same value, so the caller cannot tell them apart, and neither writes
to the store. -/
theorem C6_cancel_not_found_eq_unauthorized (commitOk : Bool)
    (s : Store) (bid uid : Nat)
    (h : (∀ b ∈ s.bookings, b.id ≠ bid) ∨
      (∃ b, s.bookings.find? (fun x => x.id == bid) = some b ∧
        b.user_id ≠ uid)) :
    cancel_booking commitOk s bid uid = (false, s) := by
  unfold cancel_booking
  rcases h with h | ⟨b, hf, hu⟩
  · have hn : s.bookings.find? (fun x => x.id == bid) = none := by
      rw [List.find?_eq_none]
      intro x hx
      simp only [beq_iff_eq]
      exact h x hx
    rw [hn]
  · rw [hf]
    simp only [if_pos hu]

/-- Claim C6, witness: over a store holding one reservation with id 1
owned by user 1, user 2 cancelling id 1 and anyone cancelling the
nonexistent id 9 both get the identical result (false, unchanged
store). -/
theorem C6_cancel_not_found_eq_unauthorized_witness :
    cancel_booking true
        ⟨[⟨1, 1, ⟨2025, 8, 1⟩, ⟨2025, 8, 8⟩, "confirmed"⟩], 2⟩ 1 2 =
      (false, ⟨[⟨1, 1, ⟨2025, 8, 1⟩, ⟨2025, 8, 8⟩, "confirmed"⟩], 2⟩)
    ∧ cancel_booking true
        ⟨[⟨1, 1, ⟨2025, 8, 1⟩, ⟨2025, 8, 8⟩, "confirmed"⟩], 2⟩ 9 1 =
      (false, ⟨[⟨1, 1, ⟨2025, 8, 1⟩, ⟨2025, 8, 8⟩, "confirmed"⟩], 2⟩) :=
  ⟨C6_cancel_not_found_eq_unauthorized true
      ⟨[⟨1, 1, ⟨2025, 8, 1⟩, ⟨2025, 8, 8⟩, "confirmed"⟩], 2⟩ 1 2
      (Or.inr ⟨⟨1, 1, ⟨2025, 8, 1⟩, ⟨2025, 8, 8⟩, "confirmed"⟩,
        by decide, by decide⟩),
    C6_cancel_not_found_eq_unauthorized true
      ⟨[⟨1, 1, ⟨2025, 8, 1⟩, ⟨2025, 8, 8⟩, "confirmed"⟩], 2⟩ 9 1
      (Or.inl (by decide))⟩

theorem find?_setCancelledFirst (l : List Booking) (bid : Nat)
    (b : Booking) (h : l.find? (fun x => x.id == bid) = some b) :
    (setCancelledFirst l bid).find? (fun x => x.id == bid) =
      some { b with status := "cancelled" } := by
  induction l with
  | nil => simp at h
  | cons b0 rest ih =>
      by_cases h0 : b0.id = bid
      · rw [List.find?_cons_of_pos _ (by simpa using h0)] at h
        injection h with hb
        subst hb
        simp only [setCancelledFirst, if_pos h0]
        rw [List.find?_cons_of_pos _ (by simpa using h0)]
      · rw [List.find?_cons_of_neg _ (by simpa using h0)] at h
        simp only [setCancelledFirst, if_neg h0]
        rw [List.find?_cons_of_neg _ (by simpa using h0)]
        exact ih h

theorem setCancelledFirst_idem (l : List Booking) (bid : Nat) :
    setCancelledFirst (setCancelledFirst l bid) bid =
      setCancelledFirst l bid := by
  induction l with
  | nil => rfl
  | cons b0 rest ih =>
      by_cases h0 : b0.id = bid
      · simp only [setCancelledFirst, if_pos h0]
      · simp only [setCancelledFirst, if_neg h0, ih]

theorem cancel_booking_success (s : Store) (bid uid : Nat)
    (h : (cancel_booking true s bid uid).1 = true) :
    ∃ b, s.bookings.find? (fun x => x.id == bid) = some b ∧
      b.user_id = uid ∧
      (cancel_booking true s bid uid).2 =
        { s with bookings := setCancelledFirst s.bookings bid } := by
  unfold cancel_booking at h ⊢
  cases hf : s.bookings.find? fun x => x.id == bid with
  | none => rw [hf] at h; simp at h
  | some b =>
      rw [hf] at h
      by_cases hu : b.user_id = uid
      · refine ⟨b, rfl, hu, ?_⟩
        dsimp only
        rw [if_neg fun hne => hne hu]
        rfl
      · dsimp only at h
        rw [if_pos hu] at h
        simp at h

/-- Claim C7: cancellation is idempotent: after any successful
cancellation, repeating the same call by the same user again returns
true and leaves the store exactly as the first call left it; in
particular the owner cancelling an already-cancelled reservation gets
success and changes nothing. -/
theorem C7_cancel_idempotent (s : Store) (bid uid : Nat)
    (h : (cancel_booking true s bid uid).1 = true) :
    cancel_booking true (cancel_booking true s bid uid).2 bid uid =
      (true, (cancel_booking true s bid uid).2) := by
  obtain ⟨b, hf, hu, hs2⟩ := cancel_booking_success s bid uid h
  rw [hs2]
  unfold cancel_booking
  dsimp only
  rw [find?_setCancelledFirst s.bookings bid b hf]
  dsimp only
  rw [if_neg fun hne => hne hu, if_pos rfl, setCancelledFirst_idem]

/-- Claim C7, witness: the owner re-cancels an already-cancelled
reservation, obtained by first cancelling a confirmed one; both results
are success and the second changes nothing. -/
theorem C7_cancel_idempotent_witness :
    (cancel_booking true
        ⟨[⟨1, 1, ⟨2025, 8, 1⟩, ⟨2025, 8, 8⟩, "confirmed"⟩], 2⟩ 1 1).1 =
      true
    ∧ cancel_booking true
        (cancel_booking true
          ⟨[⟨1, 1, ⟨2025, 8, 1⟩, ⟨2025, 8, 8⟩, "confirmed"⟩], 2⟩ 1 1).2
        1 1 =
      (true,
        (cancel_booking true
          ⟨[⟨1, 1, ⟨2025, 8, 1⟩, ⟨2025, 8, 8⟩, "confirmed"⟩], 2⟩ 1 1).2) :=
  ⟨by decide,
    C7_cancel_idempotent
      ⟨[⟨1, 1, ⟨2025, 8, 1⟩, ⟨2025, 8, 8⟩, "confirmed"⟩], 2⟩ 1 1
      (by decide)⟩

/-- Claim C8: for any year in the domain of the Python date constructor
(years outside 1..9999 make `date(year, 1, 1)` raise before the query
runs, so the listing contract only covers this range),
get_calendar_data(year) returns exactly the stored reservations of every
status satisfying start <= Dec 31 of the year and end >= Jan 1 of the
year (a row spanning a year boundary therefore appears in both years),
ordered by start date ascending, each entry carrying is_available =
false; and on a storage failure it returns the empty list. -/
theorem C8_get_calendar_data_correct (s : Store) (year : Nat)
    (_hy1 : 1 ≤ year) (_hy2 : year ≤ 9999) :
    (get_calendar_data true s year).Perm
      ((s.bookings.filter fun b =>
        decide (b.start_date ≤ ⟨year, 12, 31⟩) &&
          decide ((⟨year, 1, 1⟩ : PyDate) ≤ b.end_date)).map toEntry)
    ∧ (get_calendar_data true s year).Pairwise
        (fun a b => a.start_date ≤ b.start_date)
    ∧ (∀ e ∈ get_calendar_data true s year, e.is_available = false)
    ∧ get_calendar_data false s year = [] := by
  have hunf : get_calendar_data true s year =
      ((s.bookings.filter fun b =>
          b.start_date.ble ⟨year, 12, 31⟩ &&
            (⟨year, 1, 1⟩ : PyDate).ble b.end_date).mergeSort
        (fun a b => a.start_date.ble b.start_date)).map toEntry := rfl
  refine ⟨?_, ?_, ?_, rfl⟩
  · rw [hunf]
    exact List.Perm.map toEntry (List.mergeSort_perm _ _)
  · rw [hunf]
    have hsorted : ((s.bookings.filter fun b =>
        b.start_date.ble ⟨year, 12, 31⟩ &&
          (⟨year, 1, 1⟩ : PyDate).ble b.end_date).mergeSort
          (fun a b => a.start_date.ble b.start_date)).Pairwise
        (fun a b : Booking => a.start_date.ble b.start_date = true) :=
      List.sorted_mergeSort
        (fun a b c hab hbc =>
          PyDate.le_trans_bool a.start_date b.start_date c.start_date
            hab hbc)
        (fun a b => PyDate.le_total_bool a.start_date b.start_date) _
    refine List.Pairwise.map toEntry ?_ hsorted
    intro a b hab
    simp only [PyDate.ble, decide_eq_true_eq] at hab
    exact hab
  · rw [hunf]
    intro e he
    simp only [List.mem_map] at he
    obtain ⟨b, -, rfl⟩ := he
    rfl

/-- Claim C8, witness: the listing evaluated for the years 2025 and 2026
over a store holding one confirmed reservation spanning the boundary,
2025-12-28 to 2026-01-05, and one cancelled reservation inside 2025. -/
theorem C8_get_calendar_data_correct_witness :
    1 ≤ 2025 ∧ 2025 ≤ 9999
    ∧ ((get_calendar_data true
          ⟨[⟨1, 1, ⟨2025, 12, 28⟩, ⟨2026, 1, 5⟩, "confirmed"⟩,
            ⟨2, 2, ⟨2025, 6, 1⟩, ⟨2025, 6, 8⟩, "cancelled"⟩], 3⟩
          2025).Perm
        (((⟨[⟨1, 1, ⟨2025, 12, 28⟩, ⟨2026, 1, 5⟩, "confirmed"⟩,
            ⟨2, 2, ⟨2025, 6, 1⟩, ⟨2025, 6, 8⟩, "cancelled"⟩], 3⟩ :
              Store).bookings.filter fun b =>
          decide (b.start_date ≤ ⟨2025, 12, 31⟩) &&
            decide ((⟨2025, 1, 1⟩ : PyDate) ≤ b.end_date)).map toEntry)
      ∧ (get_calendar_data true
          ⟨[⟨1, 1, ⟨2025, 12, 28⟩, ⟨2026, 1, 5⟩, "confirmed"⟩,
            ⟨2, 2, ⟨2025, 6, 1⟩, ⟨2025, 6, 8⟩, "cancelled"⟩], 3⟩
          2025).Pairwise (fun a b => a.start_date ≤ b.start_date)
      ∧ (∀ e ∈ get_calendar_data true
          ⟨[⟨1, 1, ⟨2025, 12, 28⟩, ⟨2026, 1, 5⟩, "confirmed"⟩,
            ⟨2, 2, ⟨2025, 6, 1⟩, ⟨2025, 6, 8⟩, "cancelled"⟩], 3⟩
          2025, e.is_available = false)
      ∧ get_calendar_data false
          ⟨[⟨1, 1, ⟨2025, 12, 28⟩, ⟨2026, 1, 5⟩, "confirmed"⟩,
            ⟨2, 2, ⟨2025, 6, 1⟩, ⟨2025, 6, 8⟩, "cancelled"⟩], 3⟩
          2025 = []) :=
  ⟨by decide, by decide,
    C8_get_calendar_data_correct
      ⟨[⟨1, 1, ⟨2025, 12, 28⟩, ⟨2026, 1, 5⟩, "confirmed"⟩,
        ⟨2, 2, ⟨2025, 6, 1⟩, ⟨2025, 6, 8⟩, "cancelled"⟩], 3⟩
      2025 (by decide) (by decide)⟩

/-- The pairwise form of the invariant: a pair is safe when it is not
the case that both members are confirmed and their ranges overlap. -/
def SafePair (a b : Booking) : Prop :=
  a.status = "confirmed" → b.status = "confirmed" → ¬Overlaps a b

theorem noConfirmedOverlap_iff_pairwise (s : Store) :
    NoConfirmedOverlap s ↔ s.bookings.Pairwise SafePair := by
  rw [List.pairwise_iff_getElem]
  constructor
  · intro h i j hi hj hij ha hb
    exact h ⟨i, hi⟩ ⟨j, hj⟩ (Nat.ne_of_lt hij) ha hb
  · intro h i j hne ha hb hov
    rcases Nat.lt_or_ge i.val j.val with hlt | hge
    · exact h i.val j.val i.isLt j.isLt hlt ha hb hov
    · have hlt : j.val < i.val := by omega
      exact h j.val i.val j.isLt i.isLt hlt hb ha ⟨hov.2, hov.1⟩

theorem pairwise_create_booking (today : PyDate) (dbOk : Bool)
    (commitFail : Option String) (s : Store) (uid : Nat)
    (sd ed : PyDate) (h : s.bookings.Pairwise SafePair) :
    ((create_booking today dbOk commitFail s uid sd ed).2).bookings.Pairwise
      SafePair := by
  unfold create_booking
  by_cases h1 : sd < today
  · rw [if_pos h1]
    exact h
  · rw [if_neg h1]
    by_cases h2 : ed ≤ sd
    · rw [if_pos h2]
      exact h
    · rw [if_neg h2]
      by_cases h3 : check_availability dbOk s sd ed = true
      · rw [h3]
        cases commitFail with
        | some detail => exact h
        | none =>
            rw [if_neg (by decide : ¬((!true : Bool) = true))]
            dsimp only
            rw [List.pairwise_append]
            refine ⟨h, List.pairwise_singleton _ _, ?_⟩
            intro a ha b hb
            simp only [List.mem_singleton] at hb
            subst hb
            intro hca hcb hov
            have hav := (check_availability_eq_true_iff dbOk s sd ed).mp h3
            exact hav.2.2 a ha ⟨hca, hov.1, hov.2⟩
      · rw [Bool.not_eq_true] at h3
        rw [h3]
        exact h

theorem mem_setCancelledFirst {l : List Booking} {bid : Nat}
    {b : Booking} (h : b ∈ setCancelledFirst l bid) :
    b ∈ l ∨ ∃ x ∈ l, b = { x with status := "cancelled" } := by
  induction l with
  | nil => simp [setCancelledFirst] at h
  | cons b0 rest ih =>
      by_cases h0 : b0.id = bid
      · simp only [setCancelledFirst, if_pos h0, List.mem_cons] at h
        rcases h with h | h
        · exact Or.inr ⟨b0, List.mem_cons_self _ _, h⟩
        · exact Or.inl (List.mem_cons_of_mem _ h)
      · simp only [setCancelledFirst, if_neg h0, List.mem_cons] at h
        rcases h with h | h
        · exact Or.inl (h ▸ List.mem_cons_self _ _)
        · rcases ih h with h | ⟨x, hx, hbx⟩
          · exact Or.inl (List.mem_cons_of_mem _ h)
          · exact Or.inr ⟨x, List.mem_cons_of_mem _ hx, hbx⟩

theorem pairwise_setCancelledFirst (l : List Booking) (bid : Nat)
    (h : l.Pairwise SafePair) :
    (setCancelledFirst l bid).Pairwise SafePair := by
  induction l with
  | nil => exact h
  | cons b0 rest ih =>
      rcases List.pairwise_cons.mp h with ⟨hb0, hrest⟩
      by_cases h0 : b0.id = bid
      · simp only [setCancelledFirst, if_pos h0]
        rw [List.pairwise_cons]
        refine ⟨?_, hrest⟩
        intro b _ hca
        simp at hca
      · simp only [setCancelledFirst, if_neg h0]
        rw [List.pairwise_cons]
        refine ⟨?_, ih hrest⟩
        intro b hb
        rcases mem_setCancelledFirst hb with hmem | ⟨x, hx, rfl⟩
        · exact hb0 b hmem
        · intro hca hcb
          simp at hcb

theorem pairwise_applyOp (s : Store) (op : Op)
    (h : s.bookings.Pairwise SafePair) :
    (applyOp s op).bookings.Pairwise SafePair := by
  cases op with
  | create today dbOk commitFail uid sd ed =>
      exact pairwise_create_booking today dbOk commitFail s uid sd ed h
  | cancel commitOk bid uid =>
      have happ : applyOp s (Op.cancel commitOk bid uid) =
          (cancel_booking commitOk s bid uid).2 := rfl
      rw [happ]
      unfold cancel_booking
      cases hf : s.bookings.find? fun x => x.id == bid with
      | none => exact h
      | some b =>
          dsimp only
          by_cases hu : b.user_id ≠ uid
          · rw [if_pos hu]
            exact h
          · rw [if_neg hu]
            cases commitOk with
            | true => exact pairwise_setCancelledFirst s.bookings bid h
            | false => exact h

theorem pairwise_runOps (s : Store) (ops : List Op)
    (h : s.bookings.Pairwise SafePair) :
    (runOps s ops).bookings.Pairwise SafePair := by
  induction ops generalizing s with
  | nil => exact h
  | cons op rest ih => exact ih _ (pairwise_applyOp s op h)

/-- Claim C1: starting from a store in which no two distinct confirmed
reservations overlap, after every finite sequence of sequential
create_booking and cancel_booking calls (whatever the current date, the
session health, and the commit outcome on each call), no two distinct
confirmed reservations of the resulting store overlap. -/
theorem C1_overlap_invariant_preserved (s : Store) (ops : List Op)
    (h : NoConfirmedOverlap s) : NoConfirmedOverlap (runOps s ops) := by
  rw [noConfirmedOverlap_iff_pairwise] at h ⊢
  exact pairwise_runOps s ops h

/-- Claim C1, witness: from the empty store, a successful creation, a
rejected overlapping creation by another user, an adjacent creation, and
a cancellation leave the invariant intact. -/
theorem C1_overlap_invariant_preserved_witness :
    NoConfirmedOverlap ⟨[], 1⟩
    ∧ NoConfirmedOverlap (runOps ⟨[], 1⟩
        [Op.create ⟨2025, 8, 1⟩ true none 1 ⟨2025, 8, 2⟩ ⟨2025, 8, 9⟩,
          Op.create ⟨2025, 8, 1⟩ true none 2 ⟨2025, 8, 3⟩ ⟨2025, 8, 10⟩,
          Op.create ⟨2025, 8, 1⟩ true none 2 ⟨2025, 8, 9⟩ ⟨2025, 8, 16⟩,
          Op.cancel true 1 1]) :=
  ⟨by decide,
    C1_overlap_invariant_preserved ⟨[], 1⟩
      [Op.create ⟨2025, 8, 1⟩ true none 1 ⟨2025, 8, 2⟩ ⟨2025, 8, 9⟩,
        Op.create ⟨2025, 8, 1⟩ true none 2 ⟨2025, 8, 3⟩ ⟨2025, 8, 10⟩,
        Op.create ⟨2025, 8, 1⟩ true none 2 ⟨2025, 8, 9⟩ ⟨2025, 8, 16⟩,
        Op.cancel true 1 1] (by decide)⟩
